import Mathlib

/-!
Shallow embedding of the `Script` orchestrator of libbcc
(`src/lib/ExecutionEngine/Script.h`), in the `USE_CACHE` + `USE_MCJIT`
configuration that the specification describes (cache object suffixes
`.o` / `.so`, metadata sidecar suffix `.info`).

The inline member functions of `Script.h` (the constructor, `setError`,
`getError`, `markExternalSymbol`, `getUserDefinedExternalSymbols`,
`getCachedObjectPath`, `getCacheInfoPath`) are translated directly from the
header. Members whose bodies live in `Script.cpp` — which is not part of
the sources — are modelled from the specification and carry a doc comment
saying so.
-/

namespace bcc

/-- Error code `BCC_NO_ERROR` of `bcc/bcc.h` (success sentinel, value 0). -/
def BCC_NO_ERROR : Int := 0

/-- Error code `BCC_INVALID_VALUE` of `bcc/bcc.h` (bad argument, e.g. a
source-slot index out of range). -/
def BCC_INVALID_VALUE : Int := 2

/-- Enum `ScriptStatus::StatusType` of `Script.h` (with `USE_CACHE`,
so the `Cached` member is present). -/
inductive StatusType where
  | Unknown
  | Compiled
  | Cached
deriving DecidableEq, Repr

/-- Enum `ScriptObject::ObjectType` of `Script.h`. -/
inductive ObjectType where
  | Unknown
  | Relocatable
  | SharedObject
  | Executable
deriving DecidableEq, Repr

/-- Modelled from the spec: `ScriptCompiled` (its header is not under the
given sources) is the in-memory compiled representation; the spec's
ExportTable view over it exposes per-category counts and the raw
compiled bytes. -/
structure ScriptCompiled where
  exportVarCount : Nat
  exportFuncCount : Nat
  exportForEachCount : Nat
  pragmaCount : Nat
  funcCount : Nat
  objectSlotCount : Nat
  elf : List Nat
deriving DecidableEq, Repr

/-- Modelled from the spec: `ScriptCached` (its header is not under the
given sources) is the loaded-from-cache representation, exposing the same
ExportTable metadata as the in-memory one. -/
structure ScriptCached where
  exportVarCount : Nat
  exportFuncCount : Nat
  exportForEachCount : Nat
  pragmaCount : Nat
  funcCount : Nat
  objectSlotCount : Nat
  elf : List Nat
deriving DecidableEq, Repr

/-- The anonymous union `{ ScriptCompiled *mCompiled; ScriptCached *mCached; }`
of `Script.h`: at any time it holds at most one of the two representations
(a C++ union can never hold both); `undef` models the indeterminate
contents before the first successful preparation. -/
inductive CompiledUnit where
  | undef
  | compiled (c : ScriptCompiled)
  | cached (c : ScriptCached)
deriving DecidableEq, Repr

/-- Within `CompiledUnit`, project the in-memory representation. -/
def CompiledUnit.asCompiled : CompiledUnit → Option ScriptCompiled
  | CompiledUnit.compiled c => some c
  | _ => none

/-- Within `CompiledUnit`, project the loaded-from-cache representation. -/
def CompiledUnit.asCached : CompiledUnit → Option ScriptCached
  | CompiledUnit.cached c => some c
  | _ => none

/-- Payload of a registered source: raw bitcode bytes, an in-memory module
handle, or a file path (`addSourceBC` / `addSourceModule` / `addSourceFile`). -/
inductive SourcePayload where
  | bc (resName : String) (bitcode : List Nat)
  | mod (handle : Nat)
  | file (path : String)
deriving DecidableEq, Repr

/-- A registered source (`SourceInfo`): an inert payload plus the opaque
flags bitmask that is passed through to the backend unmodified. -/
structure SourceInfo where
  payload : SourcePayload
  flags : Nat
deriving DecidableEq, Repr

/-- State of the process-wide backend: whether the one-time global
initialization step has run. -/
structure BackendState where
  initDone : Bool
deriving DecidableEq, Repr

namespace Compiler

/-- Modelled from the spec: `Compiler::GlobalInitialization` (its body is in
`Compiler.cpp`, not under the given sources) is the process-wide backend
initialization step, idempotent, invoked on every `Script` construction;
only its first invocation per process has effect. -/
def GlobalInitialization (g : BackendState) : BackendState :=
  { g with initDone := true }

end Compiler

/-- The `Script` aggregate root of `Script.h`. Field names follow the
header; the source array `SourceInfo *mSourceList[2]` is given as the two
slots `mSourceList0` (main source) and `mSourceList1` (library source);
the two pointer members of the symbol-lookup registration are modelled as
addresses, with 0 standing for `NULL`. -/
structure Script where
  mErrorCode : Int
  mStatus : StatusType
  mObjectType : ObjectType
  mCompiledUnit : CompiledUnit
  mCacheDir : String
  mCacheName : String
  mIsContextSlotNotAvail : Bool
  mSourceList0 : Option SourceInfo
  mSourceList1 : Option SourceInfo
  mUserDefinedExternalSymbols : List String
  mpExtSymbolLookupFn : Nat
  mpExtSymbolLookupFnContext : Nat
deriving DecidableEq, Repr

/-- Constructor `Script::Script()` of `Script.h`: initializes the member
fields, calls `Compiler::GlobalInitialization()`, and nulls both source
slots. Returns the fresh object together with the backend state after the
global-initialization call. -/
def Script.construct (g : BackendState) : Script × BackendState :=
  ({ mErrorCode := BCC_NO_ERROR
     mStatus := StatusType.Unknown
     mObjectType := ObjectType.Unknown
     mCompiledUnit := CompiledUnit.undef
     mCacheDir := ""
     mCacheName := ""
     mIsContextSlotNotAvail := false
     mSourceList0 := none
     mSourceList1 := none
     mUserDefinedExternalSymbols := []
     mpExtSymbolLookupFn := 0
     mpExtSymbolLookupFnContext := 0 },
   Compiler.GlobalInitialization g)

/-- A freshly constructed `Script` (the script component of `construct`). -/
def Script.init : Script :=
  (Script.construct { initDone := false }).1

/-- `Script::setError` of `Script.h`:
`if (mErrorCode == BCC_NO_ERROR && error != BCC_NO_ERROR) mErrorCode = error;`. -/
def Script.setError (s : Script) (error : Int) : Script :=
  if s.mErrorCode = BCC_NO_ERROR ∧ error ≠ BCC_NO_ERROR then
    { s with mErrorCode := error }
  else
    s

/-- `Script::getError` of `Script.h`: returns `mErrorCode` and resets it to
`BCC_NO_ERROR`; the pair is (returned value, state after the call). -/
def Script.getError (s : Script) : Int × Script :=
  (s.mErrorCode, { s with mErrorCode := BCC_NO_ERROR })

/-- `Script::markExternalSymbol` of `Script.h`:
`mUserDefinedExternalSymbols.push_back(name);`. -/
def Script.markExternalSymbol (s : Script) (name : String) : Script :=
  { s with mUserDefinedExternalSymbols := s.mUserDefinedExternalSymbols ++ [name] }

/-- `Script::getUserDefinedExternalSymbols` of `Script.h`. -/
def Script.getUserDefinedExternalSymbols (s : Script) : List String :=
  s.mUserDefinedExternalSymbols

/-- `Script::getCachedObjectPath` of `Script.h` (`USE_MCJIT` branch):
`objPath = mCacheDir + mCacheName`, then a suffix appended by object type
(`.o` for Relocatable and Executable, `.so` for SharedObject); the default
branch asserts false, and with assertions disabled falls through and
returns the bare `objPath`. -/
def Script.getCachedObjectPath (s : Script) : String :=
  let objPath := s.mCacheDir ++ s.mCacheName
  match s.mObjectType with
  | ObjectType.Relocatable => objPath ++ ".o"
  | ObjectType.Executable => objPath ++ ".o"
  | ObjectType.SharedObject => objPath ++ ".so"
  | ObjectType.Unknown => objPath

/-- Whether `Script::getCachedObjectPath` reaches its `default:` branch and
trips `assert(false && "Unknown object type!")`: exactly when
`mObjectType` is `Unknown`. -/
def Script.cachedObjectPathAssertViolated (s : Script) : Bool :=
  match s.mObjectType with
  | ObjectType.Unknown => true
  | _ => false

/-- `Script::getCacheInfoPath` of `Script.h` (`USE_MCJIT` branch):
`getCachedObjectPath().append(".info")`. -/
def Script.getCacheInfoPath (s : Script) : String :=
  s.getCachedObjectPath ++ ".info"

/-- The object path of `Script::getCachedObjectPath` as a function of the
triple it reads — `(mCacheDir, mCacheName, mObjectType)` — with the same
body as the member function. -/
def cachedObjectPathOf (cacheDir cacheName : String) (objectType : ObjectType) : String :=
  let objPath := cacheDir ++ cacheName
  match objectType with
  | ObjectType.Relocatable => objPath ++ ".o"
  | ObjectType.Executable => objPath ++ ".o"
  | ObjectType.SharedObject => objPath ++ ".so"
  | ObjectType.Unknown => objPath

/-- The info path of `Script::getCacheInfoPath` as a function of the same
triple. -/
def cacheInfoPathOf (cacheDir cacheName : String) (objectType : ObjectType) : String :=
  cachedObjectPathOf cacheDir cacheName objectType ++ ".info"

/-- Modelled from the spec: the count accessors of `Script.cpp` (not under
the given sources) switch on `mStatus`, read the active compiled-unit
representation when the status is `Compiled` or `Cached`, and return 0
otherwise ("valid only when status is Compiled or Cached; returns 0
otherwise"). -/
def Script.getExportVarCount (s : Script) : Nat :=
  match s.mStatus with
  | StatusType.Compiled => (s.mCompiledUnit.asCompiled.map ScriptCompiled.exportVarCount).getD 0
  | StatusType.Cached => (s.mCompiledUnit.asCached.map ScriptCached.exportVarCount).getD 0
  | StatusType.Unknown => 0

/-- Modelled from the spec: see `Script.getExportVarCount`. -/
def Script.getExportFuncCount (s : Script) : Nat :=
  match s.mStatus with
  | StatusType.Compiled => (s.mCompiledUnit.asCompiled.map ScriptCompiled.exportFuncCount).getD 0
  | StatusType.Cached => (s.mCompiledUnit.asCached.map ScriptCached.exportFuncCount).getD 0
  | StatusType.Unknown => 0

/-- Modelled from the spec: see `Script.getExportVarCount`. -/
def Script.getExportForEachCount (s : Script) : Nat :=
  match s.mStatus with
  | StatusType.Compiled => (s.mCompiledUnit.asCompiled.map ScriptCompiled.exportForEachCount).getD 0
  | StatusType.Cached => (s.mCompiledUnit.asCached.map ScriptCached.exportForEachCount).getD 0
  | StatusType.Unknown => 0

/-- Modelled from the spec: see `Script.getExportVarCount`. -/
def Script.getPragmaCount (s : Script) : Nat :=
  match s.mStatus with
  | StatusType.Compiled => (s.mCompiledUnit.asCompiled.map ScriptCompiled.pragmaCount).getD 0
  | StatusType.Cached => (s.mCompiledUnit.asCached.map ScriptCached.pragmaCount).getD 0
  | StatusType.Unknown => 0

/-- Modelled from the spec: see `Script.getExportVarCount`. -/
def Script.getFuncCount (s : Script) : Nat :=
  match s.mStatus with
  | StatusType.Compiled => (s.mCompiledUnit.asCompiled.map ScriptCompiled.funcCount).getD 0
  | StatusType.Cached => (s.mCompiledUnit.asCached.map ScriptCached.funcCount).getD 0
  | StatusType.Unknown => 0

/-- Modelled from the spec: see `Script.getExportVarCount`. -/
def Script.getObjectSlotCount (s : Script) : Nat :=
  match s.mStatus with
  | StatusType.Compiled => (s.mCompiledUnit.asCompiled.map ScriptCompiled.objectSlotCount).getD 0
  | StatusType.Cached => (s.mCompiledUnit.asCached.map ScriptCached.objectSlotCount).getD 0
  | StatusType.Unknown => 0

/-- Modelled from the spec: `Script::getELF` of `Script.cpp` (not under the
given sources) exposes the raw compiled bytes, valid only after a
successful preparation; before one it returns a null result (`none`). -/
def Script.getELF (s : Script) : Option (List Nat) :=
  match s.mStatus with
  | StatusType.Compiled => s.mCompiledUnit.asCompiled.map ScriptCompiled.elf
  | StatusType.Cached => s.mCompiledUnit.asCached.map ScriptCached.elf
  | StatusType.Unknown => none

/-- Modelled from the spec: `Script::getELFSize`, the length of the raw
compiled bytes, 0 when no preparation has succeeded. -/
def Script.getELFSize (s : Script) : Nat :=
  match s.getELF with
  | some bytes => bytes.length
  | none => 0

/-- Modelled from the spec: the `addSourceBC` / `addSourceModule` /
`addSourceFile` bodies of `Script.cpp` are not under the given sources.
`addSource(slot, payload, flags)` stores the inert source in slot 0 or 1
(replacing any previous occupant) and fails with an invalid-value error,
recorded through the accumulator, when the slot index is out of range. -/
def Script.addSource (s : Script) (idx : Nat) (src : SourceInfo) : Int × Script :=
  if idx = 0 then
    (BCC_NO_ERROR, { s with mSourceList0 := some src })
  else if idx = 1 then
    (BCC_NO_ERROR, { s with mSourceList1 := some src })
  else
    (BCC_INVALID_VALUE, s.setError BCC_INVALID_VALUE)

/-- Modelled from the spec: `Script::registerSymbolCallback` of `Script.cpp`
(not under the given sources) stores the callback/context pair, replacing
any previous registration. -/
def Script.registerSymbolCallback (s : Script) (pFn : Nat) (pContext : Nat) : Int × Script :=
  (BCC_NO_ERROR,
   { s with mpExtSymbolLookupFn := pFn, mpExtSymbolLookupFnContext := pContext })

/-- Outcome of the external steps a `prepareX` call orchestrates: a cache
hit (the sidecar validated and the cached object loaded), a successful
backend compilation, or a failure carrying the error code the call
returns. -/
inductive PrepareOutcome where
  | cacheHit (c : ScriptCached)
  | compiledOk (c : ScriptCompiled)
  | failed (errorCode : Int)
deriving DecidableEq, Repr

/-- Modelled from the spec: the common state machine of the `prepareX`
bodies of `Script.cpp` (not under the given sources). On a cache hit the
script moves to `Cached` with the loaded representation; on a successful
compile it moves to `Compiled` with the in-memory representation; in both
success cases the cache identity and the object kind are recorded. On a
failure the call returns the failing step's error code, records it through
the accumulator, and performs no state transition at all. -/
def Script.prepareWith (s : Script) (cacheDir cacheName : String)
    (objectType : ObjectType) (outcome : PrepareOutcome) : Int × Script :=
  match outcome with
  | PrepareOutcome.cacheHit c =>
      (BCC_NO_ERROR,
       { s with mStatus := StatusType.Cached
                mObjectType := objectType
                mCompiledUnit := CompiledUnit.cached c
                mCacheDir := cacheDir
                mCacheName := cacheName })
  | PrepareOutcome.compiledOk c =>
      (BCC_NO_ERROR,
       { s with mStatus := StatusType.Compiled
                mObjectType := objectType
                mCompiledUnit := CompiledUnit.compiled c
                mCacheDir := cacheDir
                mCacheName := cacheName })
  | PrepareOutcome.failed e => (e, s.setError e)

/-- Modelled from the spec: `Script::prepareRelocatable` produces a
relocatable object (object kind `Relocatable`). -/
def Script.prepareRelocatable (s : Script) (cacheDir cacheName : String)
    (outcome : PrepareOutcome) : Int × Script :=
  s.prepareWith cacheDir cacheName ObjectType.Relocatable outcome

/-- Modelled from the spec: `Script::prepareSharedObject` produces a shared
object (object kind `SharedObject`). -/
def Script.prepareSharedObject (s : Script) (cacheDir cacheName : String)
    (outcome : PrepareOutcome) : Int × Script :=
  s.prepareWith cacheDir cacheName ObjectType.SharedObject outcome

/-- Modelled from the spec: `Script::prepareExecutable` produces an
executable unit (object kind `Executable`). -/
def Script.prepareExecutable (s : Script) (cacheDir cacheName : String)
    (outcome : PrepareOutcome) : Int × Script :=
  s.prepareWith cacheDir cacheName ObjectType.Executable outcome

/-- Whether the union holds the in-memory representation. -/
def CompiledUnit.isCompiled : CompiledUnit → Bool
  | CompiledUnit.compiled _ => true
  | _ => false

/-- Whether the union holds the loaded-from-cache representation. -/
def CompiledUnit.isCached : CompiledUnit → Bool
  | CompiledUnit.cached _ => true
  | _ => false

/-- The status invariant: `Compiled` implies the union holds exactly the
in-memory representation and the object kind is known; `Cached` implies it
holds exactly the loaded-from-cache representation and the object kind is
known. (That the union never holds both representations at once is
structural: `CompiledUnit` is a sum.) -/
def Script.statusInv (s : Script) : Bool :=
  match s.mStatus with
  | StatusType.Compiled =>
      s.mCompiledUnit.isCompiled && !(s.mObjectType == ObjectType.Unknown)
  | StatusType.Cached =>
      s.mCompiledUnit.isCached && !(s.mObjectType == ObjectType.Unknown)
  | StatusType.Unknown => true

/-- The states a `Script` can reach through its public operations, starting
from construction. -/
inductive Reachable : Script → Prop where
  | construct (g : BackendState) : Reachable (Script.construct g).1
  | setError (s : Script) (e : Int) :
      Reachable s → Reachable (s.setError e)
  | getError (s : Script) :
      Reachable s → Reachable (s.getError).2
  | markExternalSymbol (s : Script) (n : String) :
      Reachable s → Reachable (s.markExternalSymbol n)
  | registerSymbolCallback (s : Script) (pFn pContext : Nat) :
      Reachable s → Reachable (s.registerSymbolCallback pFn pContext).2
  | addSource (s : Script) (idx : Nat) (src : SourceInfo) :
      Reachable s → Reachable (s.addSource idx src).2
  | prepareRelocatable (s : Script) (d n : String) (o : PrepareOutcome) :
      Reachable s → Reachable (s.prepareRelocatable d n o).2
  | prepareSharedObject (s : Script) (d n : String) (o : PrepareOutcome) :
      Reachable s → Reachable (s.prepareSharedObject d n o).2
  | prepareExecutable (s : Script) (d n : String) (o : PrepareOutcome) :
      Reachable s → Reachable (s.prepareExecutable d n o).2

/-- A concrete script state with a cache identity and a shared-object kind,
used to instantiate path-derivation statements. -/
def soScript : Script :=
  { Script.init with
      mCacheDir := "d", mCacheName := "n", mObjectType := ObjectType.SharedObject }

/-- Helper: `setError` never changes the fields the status invariant reads. -/
theorem statusInv_setError (s : Script) (e : Int) :
    (s.setError e).statusInv = s.statusInv := by
  unfold Script.setError
  split <;> rfl

/-- Helper: `addSource` never changes the fields the status invariant reads. -/
theorem statusInv_addSource (s : Script) (idx : Nat) (src : SourceInfo) :
    ((s.addSource idx src).2).statusInv = s.statusInv := by
  unfold Script.addSource
  split
  · rfl
  · split
    · rfl
    · exact statusInv_setError s BCC_INVALID_VALUE

/-- Claim C1: first error wins — for every script state and error code `b`,
`setError b` stores `b` into `mErrorCode` exactly when no error is pending
(`mErrorCode = BCC_NO_ERROR`) and `b ≠ BCC_NO_ERROR`; in every other case
the field is left unchanged, so a pending non-success code is never
overwritten by a later `setError`. -/
theorem setError_first_wins (s : Script) (b : Int) :
    (s.setError b).mErrorCode =
      if s.mErrorCode = BCC_NO_ERROR ∧ b ≠ BCC_NO_ERROR then b
      else s.mErrorCode := by
  by_cases h : s.mErrorCode = BCC_NO_ERROR ∧ b ≠ BCC_NO_ERROR <;>
    simp [Script.setError, h]

/-- Claim C2: `getError` is read-and-clear — it returns the pending code
and resets `mErrorCode` to `BCC_NO_ERROR`; in the scenario
`setError a; setError b` on a fresh script (with `a`, `b` non-success and
distinct), the first `getError` returns `a` and a second one returns
`BCC_NO_ERROR`. -/
theorem getError_read_and_clear (s : Script) (a b : Int)
    (ha : a ≠ BCC_NO_ERROR) (_hb : b ≠ BCC_NO_ERROR) (_hab : a ≠ b) :
    ((s.getError).1 = s.mErrorCode ∧ ((s.getError).2).mErrorCode = BCC_NO_ERROR) ∧
    (((Script.init.setError a).setError b).getError).1 = a ∧
    (((((Script.init.setError a).setError b).getError).2).getError).1 = BCC_NO_ERROR := by
  refine ⟨⟨rfl, rfl⟩, ?_, ?_⟩ <;>
    simp [Script.getError, Script.setError, Script.init, Script.construct, ha]

/-- Witness for claim C2 at `a = 1`, `b = 2` on a fresh script. -/
theorem getError_read_and_clear_witness :
    ((Script.init.getError).1 = Script.init.mErrorCode ∧
      ((Script.init.getError).2).mErrorCode = BCC_NO_ERROR) ∧
    (((Script.init.setError 1).setError 2).getError).1 = 1 ∧
    (((((Script.init.setError 1).setError 2).getError).2).getError).1 = BCC_NO_ERROR :=
  getError_read_and_clear Script.init 1 2 (by decide) (by decide) (by decide)

/-- Claim C3 counterexample: the code builds the object path by plain
concatenation of `mCacheDir` and `mCacheName` with no path separator, so
at D = "d", N = "n", K = Relocatable it yields "dn.o" and not "d/n.o"
(the claim's "D/N" suffixed with ".o"). -/
theorem derivePaths_counterexample :
    cachedObjectPathOf "d" "n" ObjectType.Relocatable = "dn.o" ∧
    cachedObjectPathOf "d" "n" ObjectType.Relocatable ≠ ("d" ++ "/" ++ "n") ++ ".o" := by
  refine ⟨rfl, ?_⟩
  decide

/-- Claim C3 (amended): the derived object path is the concatenation of the
cache directory and cache name — no path separator is inserted between
them — suffixed with ".o" for Relocatable or Executable and ".so" for
SharedObject (so Relocatable and Executable derive the same path); the
info path is the object path with ".info" appended; and both member
functions compute exactly these functions of (mCacheDir, mCacheName,
mObjectType), hence are deterministic in that triple. -/
theorem derivePaths_concat (s : Script) (d n : String) (k : ObjectType)
    (hk : k ≠ ObjectType.Unknown) (h1 : s.mCacheDir = d) (h2 : s.mCacheName = n)
    (h3 : s.mObjectType = k) :
    cachedObjectPathOf d n k =
      (d ++ n) ++ (if k = ObjectType.SharedObject then ".so" else ".o") ∧
    cachedObjectPathOf d n ObjectType.Relocatable =
      cachedObjectPathOf d n ObjectType.Executable ∧
    cacheInfoPathOf d n k = cachedObjectPathOf d n k ++ ".info" ∧
    s.getCachedObjectPath = cachedObjectPathOf d n k ∧
    s.getCacheInfoPath = cacheInfoPathOf d n k := by
  subst h1
  subst h2
  subst h3
  refine ⟨?_, rfl, rfl, rfl, rfl⟩
  cases hk2 : s.mObjectType with
  | Unknown => exact absurd hk2 hk
  | Relocatable => simp [cachedObjectPathOf, hk2]
  | Executable => simp [cachedObjectPathOf, hk2]
  | SharedObject => simp [cachedObjectPathOf, hk2]

/-- Witness for the amended claim C3 at D = "d", N = "n", K = SharedObject. -/
theorem derivePaths_concat_witness :
    cachedObjectPathOf "d" "n" ObjectType.SharedObject =
      ("d" ++ "n") ++
        (if ObjectType.SharedObject = ObjectType.SharedObject then ".so" else ".o") ∧
    cachedObjectPathOf "d" "n" ObjectType.Relocatable =
      cachedObjectPathOf "d" "n" ObjectType.Executable ∧
    cacheInfoPathOf "d" "n" ObjectType.SharedObject =
      cachedObjectPathOf "d" "n" ObjectType.SharedObject ++ ".info" ∧
    soScript.getCachedObjectPath = cachedObjectPathOf "d" "n" ObjectType.SharedObject ∧
    soScript.getCacheInfoPath = cacheInfoPathOf "d" "n" ObjectType.SharedObject :=
  derivePaths_concat soScript "d" "n" ObjectType.SharedObject (by decide) rfl rfl rfl

/-- Claim C4: a freshly constructed script has status `Unknown`, object
kind `Unknown`, no pending error (so a first `getError` returns
`BCC_NO_ERROR`), both source slots empty, an empty external-symbol
allow-list, no symbol-lookup callback or context, and its construction
invokes the process-wide backend initialization step. -/
theorem construct_initial_state (g : BackendState) :
    (Script.construct g).1.mStatus = StatusType.Unknown ∧
    (Script.construct g).1.mObjectType = ObjectType.Unknown ∧
    (Script.construct g).1.mErrorCode = BCC_NO_ERROR ∧
    ((Script.construct g).1.getError).1 = BCC_NO_ERROR ∧
    (Script.construct g).1.mSourceList0 = none ∧
    (Script.construct g).1.mSourceList1 = none ∧
    (Script.construct g).1.mUserDefinedExternalSymbols = [] ∧
    (Script.construct g).1.mpExtSymbolLookupFn = 0 ∧
    (Script.construct g).1.mpExtSymbolLookupFnContext = 0 ∧
    (Script.construct g).2.initDone = true :=
  ⟨rfl, rfl, rfl, rfl, rfl, rfl, rfl, rfl, rfl, rfl⟩

/-- Helper: folding `markExternalSymbol` over a name list appends the list
to the allow-list. -/
theorem markExternalSymbol_foldl (names : List String) (s : Script) :
    (names.foldl Script.markExternalSymbol s).getUserDefinedExternalSymbols =
      s.getUserDefinedExternalSymbols ++ names := by
  induction names generalizing s with
  | nil => simp [Script.getUserDefinedExternalSymbols]
  | cons x xs ih =>
      rw [List.foldl_cons, ih]
      simp [Script.markExternalSymbol, Script.getUserDefinedExternalSymbols]

/-- Claim C5: `markExternalSymbol n` appends exactly the one entry `n` at
the end of the allow-list, so after calls with `n1..nk` in order on a
fresh script, `getUserDefinedExternalSymbols` returns exactly that ordered
sequence. -/
theorem markExternalSymbol_appends (s : Script) (n : String) (names : List String) :
    (s.markExternalSymbol n).getUserDefinedExternalSymbols =
      s.getUserDefinedExternalSymbols ++ [n] ∧
    (names.foldl Script.markExternalSymbol Script.init).getUserDefinedExternalSymbols =
      names := by
  refine ⟨rfl, ?_⟩
  rw [markExternalSymbol_foldl]
  rfl

/-- Claim C6: on a script whose status is `Unknown`, every export-count
accessor returns 0, `getELFSize` returns 0, and `getELF` returns a null
result. -/
theorem unprepared_introspection (s : Script) (h : s.mStatus = StatusType.Unknown) :
    s.getExportVarCount = 0 ∧ s.getExportFuncCount = 0 ∧ s.getExportForEachCount = 0 ∧
    s.getPragmaCount = 0 ∧ s.getFuncCount = 0 ∧ s.getObjectSlotCount = 0 ∧
    s.getELFSize = 0 ∧ s.getELF = none := by
  simp [Script.getExportVarCount, Script.getExportFuncCount, Script.getExportForEachCount,
    Script.getPragmaCount, Script.getFuncCount, Script.getObjectSlotCount,
    Script.getELFSize, Script.getELF, h]

/-- Witness for claim C6 on a freshly constructed script. -/
theorem unprepared_introspection_witness :
    Script.init.getExportVarCount = 0 ∧ Script.init.getExportFuncCount = 0 ∧
    Script.init.getExportForEachCount = 0 ∧ Script.init.getPragmaCount = 0 ∧
    Script.init.getFuncCount = 0 ∧ Script.init.getObjectSlotCount = 0 ∧
    Script.init.getELFSize = 0 ∧ Script.init.getELF = none :=
  unprepared_introspection Script.init rfl

/-- Claim C7: failure atomicity of preparation — on a script with status
`Unknown`, a failing `prepareRelocatable` / `prepareSharedObject` /
`prepareExecutable` returns the failing step's error code and leaves the
script exactly at `setError e` of its old state: status still `Unknown`,
object kind and compiled-unit storage untouched, and the error code
recorded through the accumulator (stored whenever none was pending). -/
theorem prepare_failure_atomic (s : Script) (d n : String) (e : Int)
    (h0 : s.mStatus = StatusType.Unknown) (he : e ≠ BCC_NO_ERROR) :
    s.prepareRelocatable d n (PrepareOutcome.failed e) = (e, s.setError e) ∧
    s.prepareSharedObject d n (PrepareOutcome.failed e) = (e, s.setError e) ∧
    s.prepareExecutable d n (PrepareOutcome.failed e) = (e, s.setError e) ∧
    (s.setError e).mStatus = StatusType.Unknown ∧
    (s.setError e).mObjectType = s.mObjectType ∧
    (s.setError e).mCompiledUnit = s.mCompiledUnit ∧
    (s.mErrorCode = BCC_NO_ERROR → (s.setError e).mErrorCode = e) := by
  refine ⟨rfl, rfl, rfl, ?_, ?_, ?_, ?_⟩
  · by_cases h : s.mErrorCode = BCC_NO_ERROR ∧ e ≠ BCC_NO_ERROR <;>
      simp [Script.setError, h, h0]
  · by_cases h : s.mErrorCode = BCC_NO_ERROR ∧ e ≠ BCC_NO_ERROR <;>
      simp [Script.setError, h]
  · by_cases h : s.mErrorCode = BCC_NO_ERROR ∧ e ≠ BCC_NO_ERROR <;>
      simp [Script.setError, h]
  · intro hm
    simp [Script.setError, hm, he]

/-- Witness for claim C7 on a fresh script with error code 9. -/
theorem prepare_failure_atomic_witness :
    Script.init.prepareRelocatable "dd" "nn" (PrepareOutcome.failed 9) =
      (9, Script.init.setError 9) ∧
    Script.init.prepareSharedObject "dd" "nn" (PrepareOutcome.failed 9) =
      (9, Script.init.setError 9) ∧
    Script.init.prepareExecutable "dd" "nn" (PrepareOutcome.failed 9) =
      (9, Script.init.setError 9) ∧
    (Script.init.setError 9).mStatus = StatusType.Unknown ∧
    (Script.init.setError 9).mObjectType = Script.init.mObjectType ∧
    (Script.init.setError 9).mCompiledUnit = Script.init.mCompiledUnit ∧
    (Script.init.mErrorCode = BCC_NO_ERROR → (Script.init.setError 9).mErrorCode = 9) :=
  prepare_failure_atomic Script.init "dd" "nn" 9 rfl (by decide)

/-- Claim C8: the status invariant — `Compiled` implies the union holds the
in-memory representation and a known object kind, `Cached` implies it
holds the loaded-from-cache representation and a known object kind, and
the two representations are mutually exclusive by construction — holds in
every state reachable through the public operations. -/
theorem statusInv_reachable (s : Script) (h : Reachable s) : s.statusInv = true := by
  induction h with
  | construct g => rfl
  | setError s e _ ih => exact (statusInv_setError s e).trans ih
  | getError s _ ih => exact ih
  | markExternalSymbol s n _ ih => exact ih
  | registerSymbolCallback s pFn pContext _ ih => exact ih
  | addSource s idx src _ ih => exact (statusInv_addSource s idx src).trans ih
  | prepareRelocatable s d n o _ ih =>
      cases o with
      | cacheHit c => rfl
      | compiledOk c => rfl
      | failed e => exact (statusInv_setError s e).trans ih
  | prepareSharedObject s d n o _ ih =>
      cases o with
      | cacheHit c => rfl
      | compiledOk c => rfl
      | failed e => exact (statusInv_setError s e).trans ih
  | prepareExecutable s d n o _ ih =>
      cases o with
      | cacheHit c => rfl
      | compiledOk c => rfl
      | failed e => exact (statusInv_setError s e).trans ih

/-- Witness for claim C8: the invariant holds on a freshly constructed
script, a reachable state. -/
theorem statusInv_reachable_witness : Script.init.statusInv = true :=
  statusInv_reachable Script.init (Reachable.construct { initDone := false })

/-- Claim C9: under the precondition that the object kind is Relocatable,
Executable or SharedObject, the assertion in `getCachedObjectPath`'s
default branch cannot trip; when the object kind is `Unknown` the
assertion trips, and (with assertions disabled) the function falls through
and returns the bare `mCacheDir ++ mCacheName` path with no extension. -/
theorem cachedObjectPath_assert_safety (s : Script) :
    (s.mObjectType ≠ ObjectType.Unknown →
      s.cachedObjectPathAssertViolated = false) ∧
    (s.mObjectType = ObjectType.Unknown →
      s.cachedObjectPathAssertViolated = true ∧
      s.getCachedObjectPath = s.mCacheDir ++ s.mCacheName) := by
  constructor
  · intro h
    cases hk : s.mObjectType with
    | Unknown => exact absurd hk h
    | Relocatable => simp [Script.cachedObjectPathAssertViolated, hk]
    | Executable => simp [Script.cachedObjectPathAssertViolated, hk]
    | SharedObject => simp [Script.cachedObjectPathAssertViolated, hk]
  · intro h
    simp [Script.cachedObjectPathAssertViolated, Script.getCachedObjectPath, h]

/-- Witness for claim C9 on a freshly constructed script, whose object kind
is `Unknown`. -/
theorem cachedObjectPath_assert_safety_witness :
    Script.init.cachedObjectPathAssertViolated = true ∧
    Script.init.getCachedObjectPath = Script.init.mCacheDir ++ Script.init.mCacheName :=
  (cachedObjectPath_assert_safety Script.init).2 rfl

/-- Claim C10: frame of the error accessors — `setError` and `getError`
touch only `mErrorCode`; every other field of the script (status, object
kind, compiled-unit storage, cache identity, context-slot flag, both
source slots, the allow-list, the callback and its context) is unchanged
by either call. -/
theorem error_accessors_frame (s : Script) (e : Int) :
    ((s.setError e).mStatus = s.mStatus ∧
     (s.setError e).mObjectType = s.mObjectType ∧
     (s.setError e).mCompiledUnit = s.mCompiledUnit ∧
     (s.setError e).mCacheDir = s.mCacheDir ∧
     (s.setError e).mCacheName = s.mCacheName ∧
     (s.setError e).mIsContextSlotNotAvail = s.mIsContextSlotNotAvail ∧
     (s.setError e).mSourceList0 = s.mSourceList0 ∧
     (s.setError e).mSourceList1 = s.mSourceList1 ∧
     (s.setError e).mUserDefinedExternalSymbols = s.mUserDefinedExternalSymbols ∧
     (s.setError e).mpExtSymbolLookupFn = s.mpExtSymbolLookupFn ∧
     (s.setError e).mpExtSymbolLookupFnContext = s.mpExtSymbolLookupFnContext) ∧
    (((s.getError).2).mStatus = s.mStatus ∧
     ((s.getError).2).mObjectType = s.mObjectType ∧
     ((s.getError).2).mCompiledUnit = s.mCompiledUnit ∧
     ((s.getError).2).mCacheDir = s.mCacheDir ∧
     ((s.getError).2).mCacheName = s.mCacheName ∧
     ((s.getError).2).mIsContextSlotNotAvail = s.mIsContextSlotNotAvail ∧
     ((s.getError).2).mSourceList0 = s.mSourceList0 ∧
     ((s.getError).2).mSourceList1 = s.mSourceList1 ∧
     ((s.getError).2).mUserDefinedExternalSymbols = s.mUserDefinedExternalSymbols ∧
     ((s.getError).2).mpExtSymbolLookupFn = s.mpExtSymbolLookupFn ∧
     ((s.getError).2).mpExtSymbolLookupFnContext = s.mpExtSymbolLookupFnContext) := by
  constructor
  · by_cases h : s.mErrorCode = BCC_NO_ERROR ∧ e ≠ BCC_NO_ERROR <;>
      simp [Script.setError, h]
  · exact ⟨rfl, rfl, rfl, rfl, rfl, rfl, rfl, rfl, rfl, rfl, rfl⟩

end bcc
